import Mathlib

/-!
# Verification of the aircontroller-web device bridge

Shallow embedding of the device-bridge subsystem of `ly0/aircontroller-web`:
the UDP discovery listener (`src/unnamed/part_009` + `src/server/constants.ts`),
the TCP command and heartbeat clients (`src/unnamed/part_008`), and the
connection manager / WebSocket routing layer
(`src/server/device-connection-manager.ts`, `src/server/websocket-server.ts`).

Stateful handlers are embedded as pure functions from a state to a new state
plus an ordered list of observable actions (WebSocket sends, TCP writes and
disconnects, HTTP relay calls, scheduled timers, emitted events).  Asynchronous
outcomes that depend on the environment (whether a TCP connect succeeds, what
the device's HTTP service answers) are passed in as explicit parameters.
-/

set_option autoImplicit false
set_option maxRecDepth 8000

/-! ## Association lists

The TypeScript code keeps its tables in JavaScript `Map`s keyed by strings
(`DeviceConnectionManager.connections`, `UDPDiscoveryServer.discoveredDevices`).
A JS `Map` preserves insertion order: `set` on a fresh key appends, `set` on an
existing key overwrites in place, `delete` removes the entry.  We embed such a
map as a `List (String × β)` with the operations below. -/

def lookupAssoc {β : Type} (k : String) : List (String × β) → Option β
  | [] => none
  | (k', v) :: rest => if k' = k then some v else lookupAssoc k rest

def insertAssoc {β : Type} (k : String) (v : β) : List (String × β) → List (String × β)
  | [] => [(k, v)]
  | (k', v') :: rest => if k' = k then (k, v) :: rest else (k', v') :: insertAssoc k v rest

def eraseAssoc {β : Type} (k : String) : List (String × β) → List (String × β)
  | [] => []
  | (k', v') :: rest => if k' = k then rest else (k', v') :: eraseAssoc k rest

/-! ## JavaScript `encodeURIComponent`

`device-connection-manager.ts` builds thumbnail and download URLs with
`encodeURIComponent(...)`.  `encodeURIComponent` leaves the unreserved
characters `A-Z a-z 0-9 - _ . ! ~ * ' ( )` as-is and percent-encodes every
other character as the uppercase-hex encoding of its UTF-8 bytes. -/

def utf8BytesOfCode (n : Nat) : List Nat :=
  if n < 0x80 then [n]
  else if n < 0x800 then [0xC0 + n / 0x40, 0x80 + n % 0x40]
  else if n < 0x10000 then
    [0xE0 + n / 0x1000, 0x80 + (n / 0x40) % 0x40, 0x80 + n % 0x40]
  else
    [0xF0 + n / 0x40000, 0x80 + (n / 0x1000) % 0x40, 0x80 + (n / 0x40) % 0x40,
     0x80 + n % 0x40]

/-- The bytes `encodeURIComponent` keeps verbatim: digits, letters, and
`- . _ ~ ! * ' ( )` (codes 45, 46, 95, 126, 33, 42, 39, 40, 41). -/
def isUnreservedByte (b : Nat) : Bool :=
  (48 ≤ b && b ≤ 57) || (65 ≤ b && b ≤ 90) || (97 ≤ b && b ≤ 122) ||
  b == 45 || b == 46 || b == 95 || b == 126 || b == 33 || b == 42 ||
  b == 39 || b == 40 || b == 41

def hexDigitChar (n : Nat) : Char :=
  if n < 10 then Char.ofNat (48 + n) else Char.ofNat (55 + n)

/-- Percent-encoding of one byte, uppercase hex: `%` `H` `H`. -/
def percentEncodeByte (b : Nat) : List Char :=
  [Char.ofNat 37, hexDigitChar (b / 16), hexDigitChar (b % 16)]

def encodeURIComponent (s : String) : String :=
  ⟨((s.data.map (fun c => utf8BytesOfCode c.toNat)).flatten.map
      (fun b => if isUnreservedByte b then [Char.ofNat b] else percentEncodeByte b)).flatten⟩

/-! ## Fixed ports and protocol constants (`src/server/constants.ts`) -/

def searchPort : Nat := 20000
def cmdPort : Nat := 20001
def heartbeatPort : Nat := 20002
def httpPort : Nat := 9527

/-- `PROTOCOL.CMD_SEARCH_PREFIX` -/
def cmdSearchHead : String := "search#"

/-- `PROTOCOL.RANDOM_STR_SEARCH`, the shared discovery token. -/
def randomStrSearch : String := "a2w0nuNyiD6vYogF"

/-- `PROTOCOL.CMD_SEARCH_PREFIX + PROTOCOL.RANDOM_STR_SEARCH + '#'`,
the header every discovery request must begin with. -/
def searchHeader : String := cmdSearchHead ++ randomStrSearch ++ "#"

/-- `String.prototype.startsWith`, spelled out over the character lists. -/
def strStartsWith (s p : String) : Bool :=
  p.data.isPrefixOf s.data

/-- JavaScript `String.prototype.split('#')`: split on `#` (code 35),
preserving empty fields. -/
def splitOnHashAux : List Char → List Char → List (List Char)
  | [], acc => [acc.reverse]
  | c :: rest, acc =>
      if c.toNat = 35 then acc.reverse :: splitOnHashAux rest []
      else splitOnHashAux rest (c :: acc)

def splitOnHash (cs : List Char) : List (List Char) :=
  splitOnHashAux cs []

/-- `isValidDiscoveryPacket` from `src/server/constants.ts`. -/
def isValidDiscoveryPacket (data : String) : Bool :=
  strStartsWith data searchHeader

/-- Model of JavaScript `parseInt(s, 10)`: skip leading whitespace, optional
sign, then the longest run of decimal digits; `none` models `NaN`. -/
def takeDigits : List Char → List Char
  | [] => []
  | c :: rest => if 48 ≤ c.toNat ∧ c.toNat ≤ 57 then c :: takeDigits rest else []

def digitsToNat (cs : List Char) : Nat :=
  cs.foldl (fun acc c => acc * 10 + (c.toNat - 48)) 0

def parseIntJs (s : String) : Option Int :=
  let cs := s.data.dropWhile
    (fun c => c.toNat == 32 || c.toNat == 9 || c.toNat == 10 || c.toNat == 13)
  match cs with
  | [] => none
  | c :: rest =>
      if c.toNat = 45 then
        match takeDigits rest with
        | [] => none
        | ds => some (-(digitsToNat ds : Int))
      else if c.toNat = 43 then
        match takeDigits rest with
        | [] => none
        | ds => some (digitsToNat ds : Int)
      else
        match takeDigits (c :: rest) with
        | [] => none
        | ds => some (digitsToNat ds : Int)

/-- `ParsedDevice` from `src/server/constants.ts`; `platform` is the
`parseInt` of the first field (`none` models `NaN`). -/
structure ParsedDevice where
  platform : Option Int
  name : String
  ip : String
deriving DecidableEq, Repr

/-- `parseDiscoveryPacket` from `src/server/constants.ts`: strip the header,
split the rest on `#`, require at least three fields. -/
def parseDiscoveryPacket (data : String) : Option ParsedDevice :=
  if isValidDiscoveryPacket data then
    let deviceStr := data.data.drop searchHeader.data.length
    let parts := splitOnHash deviceStr
    match parts with
    | p0 :: p1 :: p2 :: _ =>
        some { platform := parseIntJs ⟨p0⟩, name := ⟨p1⟩, ip := ⟨p2⟩ }
    | _ => none
  else none

/-! ## UDP discovery server (`src/unnamed/part_009`, `UDPDiscoveryServer`) -/

/-- The discovery server's state: its advertised name (constructor option or
`os.hostname()`), the first non-loopback IPv4 address of this machine
(`getLocalIPAddress()`, environment-supplied), and the `discoveredDevices`
map keyed by `ip + '_' + name`. -/
structure DiscoveryState where
  deviceName : String
  localIp : String
  discoveredDevices : List (String × ParsedDevice)
deriving DecidableEq, Repr

inductive DiscAction where
  /-- The `onDeviceDiscovered` callback firing. -/
  | deviceDiscovered (d : ParsedDevice)
  /-- `udpSocket.send` of a discovery acknowledgment to `target`. -/
  | sendResponse (target : String) (payload : String)
deriving DecidableEq, Repr

/-- The acknowledgment string built in `sendDiscoveryResponse`: the platform
code is hard-coded to 6 (web) there, with the server's name and local IP. -/
def discoveryResponseString (st : DiscoveryState) : String :=
  "search_msg_received#RBIDoKFHLX9frYTh#6#" ++ st.deviceName ++ "#" ++ st.localIp

/-- `UDPDiscoveryServer.handleDiscoveryPacket`: validate, parse, substitute the
sender's address for a missing/zero ip, dedupe by `ip_name`, fire the discovery
callback for fresh keys only, and acknowledge the sender. -/
def handleDiscoveryPacket (st : DiscoveryState) (data : String) (senderAddr : String) :
    DiscoveryState × List DiscAction :=
  if isValidDiscoveryPacket data then
    match parseDiscoveryPacket data with
    | none => (st, [])
    | some d0 =>
        let d := if d0.ip = "" ∨ d0.ip = "0.0.0.0" then { d0 with ip := senderAddr } else d0
        let key := d.ip ++ "_" ++ d.name
        if (lookupAssoc key st.discoveredDevices).isSome then
          (st, [.sendResponse senderAddr (discoveryResponseString st)])
        else
          ({ st with discoveredDevices := insertAssoc key d st.discoveredDevices },
           [.deviceDiscovered d, .sendResponse senderAddr (discoveryResponseString st)])
  else (st, [])

/-- Processing a sequence of `(packet, sender)` datagrams in arrival order. -/
def processPackets (st : DiscoveryState) : List (String × String) → DiscoveryState × List DiscAction
  | [] => (st, [])
  | (data, sender) :: rest =>
      let r1 := handleDiscoveryPacket st data sender
      let r2 := processPackets r1.1 rest
      (r2.1, r1.2 ++ r2.2)

def discKey (d : ParsedDevice) : String := d.ip ++ "_" ++ d.name

def isDiscoveredEventFor (k : String) : DiscAction → Bool
  | .deviceDiscovered d => discKey d == k
  | _ => false

/-- How many discovery events for the `(ip, name)` key `k` a run produced. -/
def countDiscoveredFor (k : String) (acts : List DiscAction) : Nat :=
  (acts.filter (isDiscoveredEventFor k)).length

/-- 1 when the dedupe map holds key `k`, else 0. -/
def keyPresent (k : String) (st : DiscoveryState) : Nat :=
  if (lookupAssoc k st.discoveredDevices).isSome then 1 else 0

/-! ## TCP command client (`src/unnamed/part_008`, `CommandClient`) -/

/-- `PROTOCOL.CMD_REPORT_DESKTOP_INFO` -/
def CMD_REPORT_DESKTOP_INFO : Int := 2

/-- `PROTOCOL.CMD_UPDATE_MOBILE_INFO` -/
def CMD_UPDATE_MOBILE_INFO : Int := 1

/-- The handshake frame written by `CommandClient.reportDesktopInfo`:
`{cmd: 2, data: {name, platform, ip, version}}`. -/
structure DesktopInfoFrame where
  cmd : Int
  name : String
  platform : Int
  ip : String
  version : String
deriving DecidableEq, Repr

/-- `CommandClient.reportDesktopInfo`, as a function of the environment's
`os.hostname()` and the first non-loopback IPv4 address (`getLocalIP()`).
The source falls back to the literal name on a falsy hostname and hard-codes
platform 6. -/
def reportDesktopInfo (hostname localIp : String) : DesktopInfoFrame :=
  { cmd := CMD_REPORT_DESKTOP_INFO
    name := if hostname = "" then "AirController Server" else hostname
    platform := 6
    ip := localIp
    version := "1.0.0" }

inductive CmdAction where
  /-- `this.emit('connected')` -/
  | emitConnected
  /-- `this.socket.write(JSON.stringify({cmd, data}))` of the handshake frame. -/
  | writeFrame (f : DesktopInfoFrame)
deriving DecidableEq, Repr

/-- The body of the `socket.connect` success callback in
`CommandClient.connect` (lines 45-59 of the file): clear the connect timeout,
set `isConnectedFlag`, emit `connected`, then `reportDesktopInfo()` which
writes the handshake frame, then resolve.  The ordered action list records
what the callback makes observable. -/
def cmdOnConnect (hostname localIp : String) : List CmdAction :=
  [.emitConnected, .writeFrame (reportDesktopInfo hostname localIp)]

/-- Whether some handshake write strictly precedes some `connected` emission
in an action trace. -/
def writeFrameBeforeEmitConnected : List CmdAction → Bool
  | [] => false
  | CmdAction.writeFrame _ :: rest =>
      rest.contains CmdAction.emitConnected || writeFrameBeforeEmitConnected rest
  | _ :: rest => writeFrameBeforeEmitConnected rest

/-! ## TCP heartbeat client (`src/unnamed/part_008`, `HeartbeatClient`) -/

/-- `HEARTBEAT_TIMEOUT` in `HeartbeatClient` (5 seconds). -/
def HEARTBEAT_TIMEOUT : Nat := 5000

/-- Mutable fields of `HeartbeatClient` that the claims depend on.
`socketAlive` models `this.socket` being a live (non-null, non-destroyed)
socket; `timeoutTimerSet` models `this.timeoutTimer !== null`. -/
structure HbState where
  isConnectedFlag : Bool
  waitingForResponse : Bool
  lastHeartbeatValue : Int
  timeoutTimerSet : Bool
  socketAlive : Bool
deriving DecidableEq, Repr

inductive HbAction where
  /-- `this.emit('connected')` -/
  | emitConnected
  /-- `this.socket.write(JSON.stringify({ip, value, time}))` — a heartbeat
  frame carrying `value` and the local ip. -/
  | write (value : Int) (ip : String)
  /-- `startTimeoutTimer()` arming the liveness timer. -/
  | startTimeoutTimer (delayMs : Nat)
  /-- `this.emit('timeout')` -/
  | emitTimeout
  /-- `this.emit('disconnected')` -/
  | emitDisconnected
  /-- `this.emit('heartbeat', message)` -/
  | emitHeartbeat (value : Int)
  /-- `setTimeout(..., 2000)` scheduling the next beat after an echo. -/
  | scheduleNextBeat (delayMs : Nat)
deriving DecidableEq, Repr

/-- `HeartbeatClient.sendHeartbeat`: a no-op unless connected, with a live
socket, and not already waiting; otherwise writes `lastHeartbeatValue + 1`,
sets `waitingForResponse`, and arms the 5s liveness timer. -/
def sendHeartbeat (localIp : String) (s : HbState) : HbState × List HbAction :=
  if !s.isConnectedFlag || !s.socketAlive || s.waitingForResponse then (s, [])
  else
    ({ s with waitingForResponse := true, timeoutTimerSet := true },
     [.write (s.lastHeartbeatValue + 1) localIp, .startTimeoutTimer HEARTBEAT_TIMEOUT])

/-- `HeartbeatClient.connect` through its `socket.connect` success callback:
the method body first resets `lastHeartbeatValue := -1` and
`waitingForResponse := false` and replaces the socket; the callback then sets
`isConnectedFlag`, emits `connected`, and calls `sendHeartbeat()`. -/
def hbConnect (localIp : String) (s : HbState) : HbState × List HbAction :=
  let s0 := { s with lastHeartbeatValue := -1, waitingForResponse := false,
                     socketAlive := true, timeoutTimerSet := false }
  let s1 := { s0 with isConnectedFlag := true }
  let r := sendHeartbeat localIp s1
  (r.1, HbAction.emitConnected :: r.2)

/-- JavaScript `message.value || 0` for a numeric `value`. -/
def jsOrZero (v : Int) : Int := if v = 0 then 0 else v

/-- The heartbeat socket `data` handler (an echo parses to a message whose
`value` is `v`): stop the liveness timer, clear `waitingForResponse`, record
the acknowledged value, schedule the next beat in 2s, emit `heartbeat`. -/
def hbOnData (v : Int) (s : HbState) : HbState × List HbAction :=
  ({ s with timeoutTimerSet := false, waitingForResponse := false,
            lastHeartbeatValue := jsOrZero v },
   [.scheduleNextBeat 2000, .emitHeartbeat v])

/-- The 2s `setTimeout` callback scheduled by the data handler:
`if (this.isConnectedFlag) this.sendHeartbeat()`. -/
def hbNextBeatFire (localIp : String) (s : HbState) : HbState × List HbAction :=
  if s.isConnectedFlag then sendHeartbeat localIp s else (s, [])

/-- `HeartbeatClient.disconnect`: `stopHeartbeat()` (cancels timers),
`socket.destroy()`, `socket = null`, clear `isConnectedFlag`.  Destroying a
live `net.Socket` makes the runtime deliver a `close` event to the socket's
still-attached listeners; the returned flag records that a `close` delivery
is now pending. -/
def hbDisconnect (s : HbState) : HbState × Bool :=
  ({ s with timeoutTimerSet := false, isConnectedFlag := false, socketAlive := false },
   s.socketAlive)

/-- The heartbeat socket `close` handler (lines 282-287 of the file): clear
`isConnectedFlag`, `stopHeartbeat()`, and emit `disconnected` unconditionally. -/
def hbOnClose (s : HbState) : HbState × List HbAction :=
  ({ s with isConnectedFlag := false, timeoutTimerSet := false }, [.emitDisconnected])

/-- The liveness-timer callback in `startTimeoutTimer` (lines 330-339), with
the `close` event that `disconnect()`'s `socket.destroy()` induces delivered
afterwards: emit `timeout`; if connected, `disconnect()` and emit
`disconnected`; then the pending `close` fires the close handler, which emits
`disconnected` again. -/
def hbOnTimeoutFire (s : HbState) : HbState × List HbAction :=
  if s.isConnectedFlag then
    let r1 := hbDisconnect s
    let r2 := if r1.2 then hbOnClose r1.1 else (r1.1, [])
    (r2.1, .emitTimeout :: .emitDisconnected :: r2.2)
  else (s, [.emitTimeout])

/-! ## Connection manager (`src/server/device-connection-manager.ts`) -/

/-- The slice of the `Device` descriptor the manager's control flow uses. -/
structure Device where
  id : String
  name : String
  ip : String
deriving DecidableEq, Repr

/-- One of the two per-device TCP channels. -/
inductive Channel where
  | cmd
  | heartbeat
deriving DecidableEq, Repr

/-- A `MobileConnection` record: `cmdConnected`/`hbConnected` are what
`commandClient.isConnected()` / `heartbeatClient.isConnected()` currently
report; `webSocketClients` is the attached-client set (clients named by
numbers, insertion order kept as JS `Set` does). -/
structure MobileConnection where
  device : Device
  cmdConnected : Bool
  hbConnected : Bool
  webSocketClients : List Nat
  connected : Bool
deriving DecidableEq, Repr

/-- The manager's `connections: Map<string, MobileConnection>` keyed by ip. -/
def ConnTable : Type := List (String × MobileConnection)

/-- JS `Set.add`: append if absent. -/
def addClient (ws : Nat) (l : List Nat) : List Nat :=
  if ws ∈ l then l else l ++ [ws]

inductive TimerKind where
  /-- The 5s grace timer armed by `handleDeviceDisconnection` before cleanup. -/
  | cleanupCheck (ip : String)
  /-- The 2s timer that re-connects the command client. -/
  | reconnectCmd (ip : String)
  /-- The 2s timer that re-connects the heartbeat client. -/
  | reconnectHb (ip : String)
deriving DecidableEq, Repr

/-- An image entity as the device's HTTP service returns it (the fields the
manager reads). -/
structure MobileImage where
  id : String
  path : String
deriving DecidableEq, Repr

/-- An image entry as the manager forwards it to the browser: the original
fields plus the generated `thumbnailUrl`. -/
structure ImageOut where
  id : String
  path : String
  thumbnailUrl : String
deriving DecidableEq, Repr

inductive MgrAction where
  /-- `ws.send(JSON.stringify({type: msgType, ...}))` to a specific client. -/
  | wsSend (client : Nat) (msgType : String)
  /-- A correlated reply `{id: corrId, type: msgType, ...}` to the requesting
  client (empty `corrId` models a missing/falsy `id`). -/
  | wsReply (corrId : String) (msgType : String)
  /-- The `image:list:response` reply with its reshaped data. -/
  | wsReplyImages (corrId : String) (msgType : String) (data : List ImageOut)
  /-- `commandClient.disconnect()` / `heartbeatClient.disconnect()`. -/
  | tcpDisconnect (ch : Channel)
  /-- `sendCommand` on a TCP channel (never produced by data-plane handlers). -/
  | tcpSend (ch : Channel) (cmd : Int)
  /-- An `axios` call `method url` with the given timeout, to
  `http://<device ip>:9527<endpoint>`. -/
  | http (method : String) (endpoint : String) (timeoutMs : Nat)
  /-- The fire-and-forget `fetchMobileInfo(connection)` kicked off on a
  successful connect (its own bounded-retry HTTP loop, not modelled further). -/
  | fetchMobileInfo (ip : String)
  /-- `setTimeout(..., delayMs)` arming a manager timer. -/
  | timer (delayMs : Nat) (kind : TimerKind)
deriving DecidableEq, Repr

/-- `broadcastToClients`: one send per attached (open) client. -/
def broadcastToClients (clients : List Nat) (msgType : String) : List MgrAction :=
  clients.map (fun c => .wsSend c msgType)

/-- The fresh record `connectToDevice` builds and stores *before* awaiting
either TCP connect (lines 35-44): `connected: false`, no clients. -/
def freshConnection (device : Device) : MobileConnection :=
  { device := device, cmdConnected := false, hbConnected := false,
    webSocketClients := [], connected := false }

/-- The synchronous part of a first `connectToDevice` for an ip: the record
is inserted into the table before `commandClient.connect` is awaited, so it
is visible to any interleaved `connect:device`. -/
def connectPhase1 (st : ConnTable) (device : Device) : ConnTable :=
  insertAssoc device.ip (freshConnection device) st

/-- The outcome of the two sequential TCP connects of an initial
`connectToDevice` (the heartbeat connect is only attempted when the command
connect succeeded). -/
structure ConnectOutcome where
  cmdOk : Bool
  hbOk : Bool
deriving DecidableEq, Repr

/-- `DeviceConnectionManager.connectToDevice`.  Returns the new table, the
ordered observable actions, and whether the promise rejected (the `throw
error` at the end of the catch block).  On the reuse path (record already
present) the source inspects nothing but the record's existence: it sends
`connection:success` and attaches the client.  On the fresh path it inserts
the record, awaits command then heartbeat connect, and on either failure
disconnects both clients, deletes the record, sends `connection:error`, and
rethrows — so the trailing `webSocketClients.add(ws)` is skipped. -/
def connectToDevice (st : ConnTable) (device : Device) (ws : Nat)
    (oc : ConnectOutcome) : ConnTable × List MgrAction × Bool :=
  match lookupAssoc device.ip st with
  | some conn =>
      (insertAssoc device.ip
         { conn with webSocketClients := addClient ws conn.webSocketClients } st,
       [.wsSend ws "connection:success"], false)
  | none =>
      let st1 := connectPhase1 st device
      if oc.cmdOk then
        if oc.hbOk then
          let conn1 : MobileConnection :=
            { device := device, cmdConnected := true, hbConnected := true,
              webSocketClients := addClient ws [], connected := true }
          (insertAssoc device.ip conn1 st1,
           [.fetchMobileInfo device.ip, .wsSend ws "connection:success"], false)
        else
          (eraseAssoc device.ip st1,
           [.tcpDisconnect .cmd, .tcpDisconnect .heartbeat,
            .wsSend ws "connection:error"], true)
      else
        (eraseAssoc device.ip st1,
         [.tcpDisconnect .cmd, .tcpDisconnect .heartbeat,
          .wsSend ws "connection:error"], true)

/-- The `connect:device` case of the WebSocket server's message handler
(`src/server/websocket-server.ts` lines 451-468): it awaits
`connectToDevice` and, when that rejects, sends its own `connection:error`
to the same client. -/
def handleConnectDevice (st : ConnTable) (device : Device) (ws : Nat)
    (oc : ConnectOutcome) : ConnTable × List MgrAction :=
  let r := connectToDevice st device ws oc
  if r.2.2 then (r.1, r.2.1 ++ [.wsSend ws "connection:error"]) else (r.1, r.2.1)

/-- `DeviceConnectionManager.handleDeviceDisconnection` (lines 750-806):
read both clients' `isConnected()`; if both are down, clear `connected`,
broadcast `device:disconnected`, and arm a 5s cleanup timer; if exactly one
is down, arm a 2s reconnect timer for the failed channel only. -/
def handleDeviceDisconnection (conn : MobileConnection) :
    MobileConnection × List MgrAction :=
  let c := conn.cmdConnected
  let h := conn.hbConnected
  if !c && !h then
    ({ conn with connected := false },
     broadcastToClients conn.webSocketClients "device:disconnected"
       ++ [.timer 5000 (.cleanupCheck conn.device.ip)])
  else
    (conn,
     (if !c && h then [.timer 2000 (.reconnectCmd conn.device.ip)] else [])
       ++ (if c && !h then [.timer 2000 (.reconnectHb conn.device.ip)] else []))

/-- `DeviceConnectionManager.closeConnection`: disconnect both clients,
broadcast `connection:closed`, remove the record. -/
def closeConnection (st : ConnTable) (ip : String) : ConnTable × List MgrAction :=
  match lookupAssoc ip st with
  | none => (st, [])
  | some conn =>
      (eraseAssoc ip st,
       [.tcpDisconnect .cmd, .tcpDisconnect .heartbeat]
         ++ broadcastToClients conn.webSocketClients "connection:closed")

/-- The 5s cleanup timer's callback (lines 768-773): double-check that both
clients are still disconnected before calling `closeConnection`. -/
def cleanupTimerFire (st : ConnTable) (ip : String) : ConnTable × List MgrAction :=
  match lookupAssoc ip st with
  | none => (st, [])
  | some conn =>
      if !conn.cmdConnected && !conn.hbConnected then closeConnection st ip
      else (st, [])

/-- The manager's reaction to a heartbeat-client action trace: the manager
listens only for `disconnected` (`setupEventForwarding`, line 164), and each
delivery runs `handleDeviceDisconnection` at a moment when the heartbeat
client already reports not-connected. -/
def mgrReactionToHbEvents (conn : MobileConnection) (acts : List HbAction) :
    List MgrAction :=
  acts.foldl
    (fun acc a =>
      acc ++ (if a = HbAction.emitDisconnected
              then (handleDeviceDisconnection { conn with hbConnected := false }).2
              else []))
    []

/-- The WebSocket `close` handler registered by `setupWebSocketHandling`
(lines 187-202): remove the client from the record's set and deliberately
keep the TCP connection and the record alive (the teardown is commented out
in the source), producing no actions. -/
def wsOnClose (st : ConnTable) (ip : String) (ws : Nat) : ConnTable × List MgrAction :=
  match lookupAssoc ip st with
  | none => (st, [])
  | some conn =>
      (insertAssoc ip
         { conn with webSocketClients := conn.webSocketClients.erase ws } st, [])

/-! ## Data-plane handlers and WebSocket message dispatch

Every handler below relays over HTTP through `makeHttpRequest`, whose `axios`
call carries `timeout: 30000`; the HTTP outcome is passed in as `httpOk`
(and, for `image:list`, as the parsed response data).  On failure each
handler replies `{id, type: 'error', ...}`. -/

/-- The `axios` timeout in `makeHttpRequest` (line 451). -/
def HTTP_RELAY_TIMEOUT : Nat := 30000

def getDeviceInfo (corrId : String) (httpOk : Bool) : List MgrAction :=
  [.http "GET" "/device/info" HTTP_RELAY_TIMEOUT,
   .wsReply corrId (if httpOk then "device:info:response" else "error")]

def getFileList (corrId : String) (_path : String) (httpOk : Bool) : List MgrAction :=
  [.http "POST" "/file/list" HTTP_RELAY_TIMEOUT,
   .wsReply corrId (if httpOk then "file:list:response" else "error")]

def downloadFile (corrId : String) (path : String) (httpOk : Bool) : List MgrAction :=
  [.http "GET" ("/file/download?path=" ++ encodeURIComponent path) HTTP_RELAY_TIMEOUT,
   .wsReply corrId (if httpOk then "file:download:response" else "error")]

/-- `uploadFile` (lines 543-563): the body is a stub — it immediately replies
`file:upload:response` with `{success: true}` and performs no HTTP request. -/
def uploadFile (corrId : String) : List MgrAction :=
  [.wsReply corrId "file:upload:response"]

def deleteFile (corrId : String) (_path : String) (httpOk : Bool) : List MgrAction :=
  [.http "DELETE" "/file" HTTP_RELAY_TIMEOUT,
   .wsReply corrId (if httpOk then "file:delete:response" else "error")]

/-- The thumbnail decoration in `getImages` (line 601): the URL is built from
the device ip, the fixed HTTP port, and the image's URL-encoded *path*. -/
def addThumbnailUrl (deviceIp : String) (img : MobileImage) : ImageOut :=
  { id := img.id, path := img.path
    thumbnailUrl :=
      "http://" ++ deviceIp ++ ":9527/stream/thumbnail?path="
        ++ encodeURIComponent img.path }

/-- `getImages` (lines 587-616): choose `/image/imagesOfAlbum` when an album
id is present and `/image/all` otherwise, relay over HTTP, decorate each
returned image with `thumbnailUrl`, and reply under the correlation id.
`resp = none` models the HTTP call failing. -/
def getImages (conn : MobileConnection) (corrId : String) (albumId : Option String)
    (resp : Option (List MobileImage)) : List MgrAction :=
  let endpoint := match albumId with
    | some _ => "/image/imagesOfAlbum"
    | none => "/image/all"
  match resp with
  | some images =>
      [.http "POST" endpoint HTTP_RELAY_TIMEOUT,
       .wsReplyImages corrId "image:list:response"
         (images.map (addThumbnailUrl conn.device.ip))]
  | none =>
      [.http "POST" endpoint HTTP_RELAY_TIMEOUT, .wsReply corrId "error"]

def getAlbums (corrId : String) (httpOk : Bool) : List MgrAction :=
  [.http "POST" "/image/albums" HTTP_RELAY_TIMEOUT,
   .wsReply corrId (if httpOk then "album:list:response" else "error")]

def getContacts (corrId : String) (httpOk : Bool) : List MgrAction :=
  [.http "GET" "/contacts" HTTP_RELAY_TIMEOUT,
   .wsReply corrId (if httpOk then "contact:list:response" else "error")]

def getApps (corrId : String) (httpOk : Bool) : List MgrAction :=
  [.http "GET" "/apps" HTTP_RELAY_TIMEOUT,
   .wsReply corrId (if httpOk then "app:list:response" else "error")]

def getVideos (corrId : String) (httpOk : Bool) : List MgrAction :=
  [.http "POST" "/video/videos" HTTP_RELAY_TIMEOUT,
   .wsReply corrId (if httpOk then "video:list:response" else "error")]

/-- An inbound WebSocket request `{id?, type, payload}`; `corrId = ""` models
a missing `id` (both are falsy in the source's `if (id)` checks), `path` is
`payload.path` and `albumId` is `payload.albumId`. -/
structure WsRequest where
  rtype : String
  corrId : String
  path : String
  albumId : Option String
deriving DecidableEq, Repr

/-- The `switch (type)` of `DeviceConnectionManager.handleWebSocketMessage`
(lines 246-324), for a resolved connection.  `httpOk` and `imagesResp` stand
for the device HTTP service's answer to whichever relay the branch makes. -/
def handleWebSocketMessage (conn : MobileConnection) (m : WsRequest)
    (httpOk : Bool) (imagesResp : Option (List MobileImage)) : List MgrAction :=
  if m.rtype = "device:info" then getDeviceInfo m.corrId httpOk
  else if m.rtype = "file:list" then getFileList m.corrId m.path httpOk
  else if m.rtype = "file:download" then downloadFile m.corrId m.path httpOk
  else if m.rtype = "file:upload" then uploadFile m.corrId
  else if m.rtype = "file:delete" then deleteFile m.corrId m.path httpOk
  else if m.rtype = "image:list" then getImages conn m.corrId m.albumId imagesResp
  else if m.rtype = "album:list" then getAlbums m.corrId httpOk
  else if m.rtype = "contact:list" then getContacts m.corrId httpOk
  else if m.rtype = "app:list" then getApps m.corrId httpOk
  else if m.rtype = "video:list" then getVideos m.corrId httpOk
  else if m.rtype = "heartbeat" then [.wsReply "" "heartbeat:ack"]
  else if m.rtype = "register" then [.wsReply "" "register:ack"]
  else if m.corrId = "" then []
  else [.wsReply m.corrId "error"]

/-- The data-plane request types named by the spec: file listing, delete and
upload, plus image/video/album/contact/app enumeration. -/
def dataPlaneTypes : List String :=
  ["file:list", "file:delete", "file:upload", "image:list", "video:list",
   "album:list", "contact:list", "app:list"]

def MgrAction.isHttp : MgrAction → Bool
  | .http _ _ _ => true
  | _ => false

def MgrAction.isTcpSend : MgrAction → Bool
  | .tcpSend _ _ => true
  | _ => false

/-- Whether an action is an HTTP relay with the 30s timeout. -/
def isHttp30000 : MgrAction → Bool
  | .http _ _ t => t == 30000
  | _ => false

/-! ## Concrete fixtures used by witnesses and counterexamples -/

def deviceFifty : Device :=
  { id := "device_192_168_1_50", name := "Pixel", ip := "192.168.1.50" }

/-- A record whose command channel is alive. -/
def connCmdAlive : MobileConnection :=
  { device := deviceFifty, cmdConnected := true, hbConnected := true,
    webSocketClients := [4], connected := true }

/-- A record with both channels down and two attached clients. -/
def connBothDown : MobileConnection :=
  { device := deviceFifty, cmdConnected := false, hbConnected := false,
    webSocketClients := [4, 5], connected := true }

/-- A record whose channels have dropped and that keeps one attached client. -/
def connDropped : MobileConnection :=
  { device := deviceFifty, cmdConnected := false, hbConnected := false,
    webSocketClients := [2], connected := false }

/-- A record with a single attached client. -/
def connOneClient : MobileConnection :=
  { device := deviceFifty, cmdConnected := true, hbConnected := true,
    webSocketClients := [9], connected := true }

/-- A heartbeat client mid-flight: connected, live socket, one beat pending. -/
def hbLiveEx : HbState :=
  { isConnectedFlag := true, waitingForResponse := true,
    lastHeartbeatValue := 7, timeoutTimerSet := true, socketAlive := true }

/-- A heartbeat client between beats: connected, nothing pending. -/
def hbIdleEx : HbState :=
  { isConnectedFlag := true, waitingForResponse := false,
    lastHeartbeatValue := 41, timeoutTimerSet := false, socketAlive := true }

/-- A discovery server with an empty dedupe map. -/
def discStateEx : DiscoveryState :=
  { deviceName := "myhost", localIp := "10.0.0.5", discoveredDevices := [] }

def fileListReq : WsRequest :=
  { rtype := "file:list", corrId := "id1", path := "/sdcard", albumId := none }

def uploadReq : WsRequest :=
  { rtype := "file:upload", corrId := "u1", path := "", albumId := none }

/-! ## Helper lemmas -/

theorem lookupAssoc_insertAssoc_self {β : Type} (k : String) (v : β)
    (l : List (String × β)) : lookupAssoc k (insertAssoc k v l) = some v := by
  induction l with
  | nil => simp [insertAssoc, lookupAssoc]
  | cons hd tl ih =>
      obtain ⟨k', v'⟩ := hd
      by_cases h : k' = k
      · simp [insertAssoc, lookupAssoc, h]
      · simp [insertAssoc, lookupAssoc, h, ih]

theorem lookupAssoc_insertAssoc_ne {β : Type} {k k' : String} (v : β)
    (l : List (String × β)) (h : k' ≠ k) :
    lookupAssoc k' (insertAssoc k v l) = lookupAssoc k' l := by
  induction l with
  | nil => simp [insertAssoc, lookupAssoc, Ne.symm h]
  | cons hd tl ih =>
      obtain ⟨k₀, v₀⟩ := hd
      by_cases h₀ : k₀ = k
      · subst h₀
        simp [insertAssoc, lookupAssoc, Ne.symm h]
      · simp [insertAssoc, lookupAssoc, h₀, ih]

theorem eraseAssoc_insertAssoc_of_lookup_none {β : Type} {k : String} (v : β)
    {l : List (String × β)} (h : lookupAssoc k l = none) :
    eraseAssoc k (insertAssoc k v l) = l := by
  induction l with
  | nil => simp [insertAssoc, eraseAssoc]
  | cons hd tl ih =>
      obtain ⟨k', v'⟩ := hd
      by_cases h' : k' = k
      · simp [lookupAssoc, h'] at h
      · simp [lookupAssoc, h'] at h
        simp [insertAssoc, eraseAssoc, h', ih h]

theorem lookupAssoc_eraseAssoc_of_lookup_none {β : Type} {k : String}
    {l : List (String × β)} (h : lookupAssoc k l = none) :
    lookupAssoc k (eraseAssoc k l) = none := by
  induction l with
  | nil => simp [eraseAssoc, lookupAssoc]
  | cons hd tl ih =>
      obtain ⟨k', v'⟩ := hd
      by_cases h' : k' = k
      · simp [lookupAssoc, h'] at h
      · simp [lookupAssoc, h'] at h
        simp [eraseAssoc, lookupAssoc, h', ih h]

theorem exists_mem_iff_ne_nil {α : Type} (l : List α) : (∃ x, x ∈ l) ↔ l ≠ [] := by
  cases l <;> simp

theorem jsOrZero_eq (v : Int) : jsOrZero v = v := by
  unfold jsOrZero; split <;> omega

theorem keyPresent_le_one (k : String) (st : DiscoveryState) : keyPresent k st ≤ 1 := by
  unfold keyPresent; split <;> omega

theorem handleDiscoveryPacket_count (st : DiscoveryState) (data sender k : String) :
    countDiscoveredFor k (handleDiscoveryPacket st data sender).2 + keyPresent k st
      ≤ keyPresent k (handleDiscoveryPacket st data sender).1 := by
  unfold handleDiscoveryPacket
  split
  · split
    · simp [countDiscoveredFor]
    · rename_i d0 _
      set d := if d0.ip = "" ∨ d0.ip = "0.0.0.0" then { d0 with ip := sender } else d0 with hd
      by_cases hseen : (lookupAssoc (d.ip ++ "_" ++ d.name) st.discoveredDevices).isSome
      · simp [hseen, countDiscoveredFor, isDiscoveredEventFor]
      · simp only [hseen, if_false, Bool.false_eq_true, reduceIte]
        by_cases hk : discKey d = k
        · have hpres : keyPresent k st = 0 := by
            unfold keyPresent
            rw [← hk]
            simp [discKey] at hseen ⊢
            simp [hseen]
          have hpres' :
              keyPresent k { st with
                discoveredDevices := insertAssoc (d.ip ++ "_" ++ d.name) d st.discoveredDevices } = 1 := by
            unfold keyPresent
            rw [← hk]
            simp [discKey, lookupAssoc_insertAssoc_self]
          simp [countDiscoveredFor, isDiscoveredEventFor, hk, hpres, hpres']
        · have hpres' :
              keyPresent k { st with
                discoveredDevices := insertAssoc (d.ip ++ "_" ++ d.name) d st.discoveredDevices }
                = keyPresent k st := by
            unfold keyPresent
            rw [lookupAssoc_insertAssoc_ne]
            intro heq
            exact hk (by simpa [discKey] using heq.symm)
          simp [countDiscoveredFor, isDiscoveredEventFor, hk, hpres']
  · simp [countDiscoveredFor]

theorem processPackets_count (ps : List (String × String)) (st : DiscoveryState) (k : String) :
    countDiscoveredFor k (processPackets st ps).2 + keyPresent k st
      ≤ keyPresent k (processPackets st ps).1 := by
  induction ps generalizing st with
  | nil => simp [processPackets, countDiscoveredFor]
  | cons p rest ih =>
      obtain ⟨data, sender⟩ := p
      have h1 := handleDiscoveryPacket_count st data sender k
      have h2 := ih (handleDiscoveryPacket st data sender).1
      simp only [processPackets]
      have hsplit :
          countDiscoveredFor k ((handleDiscoveryPacket st data sender).2
              ++ (processPackets (handleDiscoveryPacket st data sender).1 rest).2)
            = countDiscoveredFor k (handleDiscoveryPacket st data sender).2
              + countDiscoveredFor k (processPackets (handleDiscoveryPacket st data sender).1 rest).2 := by
        simp [countDiscoveredFor]
      omega

/-! ## Claims -/

/-- C1, counterexample: on a first connect where the command channel succeeds
and the heartbeat channel fails, the requesting client receives TWO
`connection:error` messages — one from `connectToDevice`'s rollback and one
from the `connect:device` case's catch in the WebSocket server — not exactly
one as claimed. -/
theorem c1_counterexample :
    ((handleConnectDevice [] deviceFifty 0 { cmdOk := true, hbOk := false }).2.count
        (MgrAction.wsSend 0 "connection:error")) = 2 := by decide

/-- C1, amended: if the command channel connects but the heartbeat channel
fails during the initial connect for a fresh device ip, then after the
`connect:device` handling completes both TCP clients are disconnected, the
manager's table is exactly as before (no record for that ip remains), no
`connection:success` is sent, and the requesting client receives exactly two
`connection:error` messages. -/
theorem c1_rollback (st : ConnTable) (device : Device) (ws : Nat)
    (hfresh : lookupAssoc device.ip st = none) :
    (handleConnectDevice st device ws { cmdOk := true, hbOk := false }).2
        = [.tcpDisconnect .cmd, .tcpDisconnect .heartbeat,
           .wsSend ws "connection:error", .wsSend ws "connection:error"]
    ∧ (handleConnectDevice st device ws { cmdOk := true, hbOk := false }).1 = st
    ∧ lookupAssoc device.ip
        (handleConnectDevice st device ws { cmdOk := true, hbOk := false }).1 = none := by
  have hstate :
      eraseAssoc device.ip (connectPhase1 st device) = st := by
    unfold connectPhase1
    exact eraseAssoc_insertAssoc_of_lookup_none _ hfresh
  unfold handleConnectDevice connectToDevice
  rw [hfresh]
  simp [hstate, hfresh]

/-- C1 witness: the rollback theorem at a concrete fresh table. -/
theorem c1_witness :
    (handleConnectDevice [] deviceFifty 7 { cmdOk := true, hbOk := false }).2
        = [.tcpDisconnect .cmd, .tcpDisconnect .heartbeat,
           .wsSend 7 "connection:error", .wsSend 7 "connection:error"]
    ∧ (handleConnectDevice [] deviceFifty 7 { cmdOk := true, hbOk := false }).1 = []
    ∧ lookupAssoc deviceFifty.ip
        (handleConnectDevice [] deviceFifty 7 { cmdOk := true, hbOk := false }).1 = none :=
  c1_rollback [] deviceFifty 7 rfl

/-- C2: a `device:disconnected` broadcast happens exactly when both channels
report not-connected (and some client is attached to receive it); with
exactly one channel down no disconnect broadcast, no 5s grace timer, and no
TCP teardown happens and the record is untouched; when both are down the
handler clears `connected`, broadcasts, and arms the 5s grace timer; the 5s
timer's callback destroys the record only after re-verifying that both
channels are still down, and leaves everything unchanged otherwise. -/
theorem c2_disconnect_policy (conn : MobileConnection) :
    ((∃ cl, MgrAction.wsSend cl "device:disconnected"
        ∈ (handleDeviceDisconnection conn).2)
      ↔ (conn.cmdConnected = false ∧ conn.hbConnected = false
          ∧ conn.webSocketClients ≠ []))
    ∧ (conn.cmdConnected = false → conn.hbConnected = false →
        (handleDeviceDisconnection conn).2
          = broadcastToClients conn.webSocketClients "device:disconnected"
            ++ [.timer 5000 (.cleanupCheck conn.device.ip)]
        ∧ (handleDeviceDisconnection conn).1.connected = false)
    ∧ (conn.cmdConnected ≠ conn.hbConnected →
        (∀ cl, MgrAction.wsSend cl "device:disconnected"
            ∉ (handleDeviceDisconnection conn).2)
        ∧ (∀ k, MgrAction.timer 5000 k ∉ (handleDeviceDisconnection conn).2)
        ∧ (∀ ch, MgrAction.tcpDisconnect ch ∉ (handleDeviceDisconnection conn).2)
        ∧ (handleDeviceDisconnection conn).1 = conn)
    ∧ (∀ (st : ConnTable) (ip : String) (c : MobileConnection),
        lookupAssoc ip st = some c →
        (c.cmdConnected = true ∨ c.hbConnected = true) →
        cleanupTimerFire st ip = (st, []))
    ∧ (∀ (st : ConnTable) (ip : String) (c : MobileConnection),
        lookupAssoc ip st = some c →
        c.cmdConnected = false → c.hbConnected = false →
        (cleanupTimerFire st ip).1 = eraseAssoc ip st) := by
  refine ⟨?_, ?_, ?_, ?_, ?_⟩
  · cases hc : conn.cmdConnected <;> cases hh : conn.hbConnected <;>
      simp [handleDeviceDisconnection, broadcastToClients, hc, hh,
            exists_mem_iff_ne_nil]
  · intro hc hh
    simp [handleDeviceDisconnection, hc, hh]
  · intro hne
    cases hc : conn.cmdConnected <;> cases hh : conn.hbConnected <;>
      simp [hc, hh] at hne ⊢ <;>
      simp [handleDeviceDisconnection, hc, hh]
  · intro st ip c hlook hup
    unfold cleanupTimerFire
    rw [hlook]
    rcases hup with h | h <;> simp [h]
  · intro st ip c hlook hc hh
    unfold cleanupTimerFire closeConnection
    rw [hlook]
    simp [hc, hh, hlook]

/-- C2 witness: the both-down branch at a concrete record. -/
theorem c2_witness :
    (handleDeviceDisconnection connBothDown).2
      = broadcastToClients [4, 5] "device:disconnected"
        ++ [.timer 5000 (.cleanupCheck "192.168.1.50")]
    ∧ (handleDeviceDisconnection connBothDown).1.connected = false :=
  (c2_disconnect_policy connBothDown).2.1 rfl rfl

/-- C3, counterexample: a packet that matches the fixed prefix and shared
token but carries fewer than three `#`-delimited fields fails to parse, and
the handler drops it with NO acknowledgment — refuting "for every such valid
packet an acknowledgment ... is sent". -/
theorem c3_counterexample :
    isValidDiscoveryPacket "search#a2w0nuNyiD6vYogF#1#shortpacket" = true
    ∧ (handleDiscoveryPacket discStateEx
        "search#a2w0nuNyiD6vYogF#1#shortpacket" "10.0.0.9").2 = [] := by
  constructor
  · decide
  · decide

/-- C3, amended: for every discovery packet that matches the fixed
prefix/token AND parses (at least three `#`-delimited fields), the handler
always acknowledges the sender with the fixed-format response carrying the
hard-coded web platform code 6, the server's hostname, and its first
non-loopback IPv4 address; and starting from an empty dedupe cache, at most
one discovery event fires per unique `(ip, name)` key across any sequence of
received broadcasts. -/
theorem c3_discovery (st : DiscoveryState) (data sender : String)
    (hvalid : isValidDiscoveryPacket data = true)
    (hparse : (parseDiscoveryPacket data).isSome = true) :
    (DiscAction.sendResponse sender (discoveryResponseString st)
        ∈ (handleDiscoveryPacket st data sender).2)
    ∧ (∀ (st0 : DiscoveryState) (ps : List (String × String)) (k : String),
        st0.discoveredDevices = [] →
        countDiscoveredFor k (processPackets st0 ps).2 ≤ 1) := by
  constructor
  · unfold handleDiscoveryPacket
    rw [hvalid]
    obtain ⟨d0, hd0⟩ := Option.isSome_iff_exists.mp hparse
    rw [hd0]
    simp only [if_true]
    split <;> split <;> simp
  · intro st0 ps k hempty
    have h := processPackets_count ps st0 k
    have hzero : keyPresent k st0 = 0 := by
      unfold keyPresent
      rw [hempty]
      simp [lookupAssoc]
    have hone := keyPresent_le_one k (processPackets st0 ps).1
    omega

/-- C3 witness: a fully-formed discovery packet gets the fixed-format
acknowledgment, and a repeated broadcast fires at most one event. -/
theorem c3_witness :
    (DiscAction.sendResponse "10.0.0.9" (discoveryResponseString discStateEx)
        ∈ (handleDiscoveryPacket discStateEx
            "search#a2w0nuNyiD6vYogF#1#Pixel#192.168.1.50" "10.0.0.9").2)
    ∧ countDiscoveredFor "192.168.1.50_Pixel"
        (processPackets discStateEx
          [("search#a2w0nuNyiD6vYogF#1#Pixel#192.168.1.50", "10.0.0.9"),
           ("search#a2w0nuNyiD6vYogF#1#Pixel#192.168.1.50", "10.0.0.9")]).2 ≤ 1 :=
  ⟨(c3_discovery discStateEx "search#a2w0nuNyiD6vYogF#1#Pixel#192.168.1.50"
      "10.0.0.9" (by decide) (by decide)).1,
   (c3_discovery discStateEx "search#a2w0nuNyiD6vYogF#1#Pixel#192.168.1.50"
      "10.0.0.9" (by decide) (by decide)).2 discStateEx
      [("search#a2w0nuNyiD6vYogF#1#Pixel#192.168.1.50", "10.0.0.9"),
       ("search#a2w0nuNyiD6vYogF#1#Pixel#192.168.1.50", "10.0.0.9")]
      "192.168.1.50_Pixel" rfl⟩

/-- C4: on the heartbeat channel, the connect callback's first heartbeat
carries value 0 (and leaves exactly one beat awaiting a response); after an
echo acknowledging value `v`, the next beat carries `v + 1`; and
`sendHeartbeat` is a no-op while `waitingForResponse` is set. -/
theorem c4_heartbeat_values (s : HbState) (ip : String) :
    ((hbConnect ip s).2
        = [HbAction.emitConnected, .write 0 ip, .startTimeoutTimer 5000]
      ∧ (hbConnect ip s).1.waitingForResponse = true)
    ∧ (∀ v : Int, s.isConnectedFlag = true → s.socketAlive = true →
        (hbNextBeatFire ip (hbOnData v s).1).2
          = [.write (v + 1) ip, .startTimeoutTimer 5000])
    ∧ (s.waitingForResponse = true → sendHeartbeat ip s = (s, [])) := by
  refine ⟨⟨?_, ?_⟩, ?_, ?_⟩
  · simp [hbConnect, sendHeartbeat, HEARTBEAT_TIMEOUT]
  · simp [hbConnect, sendHeartbeat]
  · intro v hc ha
    simp [hbOnData, hbNextBeatFire, sendHeartbeat, hc, ha, jsOrZero_eq,
          HEARTBEAT_TIMEOUT]
  · intro hw
    simp [sendHeartbeat, hw]

/-- C4 witness: a connect, an echo of 41, and a suppressed send at concrete
states. -/
theorem c4_witness :
    ((hbConnect "10.0.0.5" hbIdleEx).2
        = [HbAction.emitConnected, .write 0 "10.0.0.5", .startTimeoutTimer 5000])
    ∧ ((hbNextBeatFire "10.0.0.5" (hbOnData 41 hbIdleEx).1).2
        = [.write 42 "10.0.0.5", .startTimeoutTimer 5000])
    ∧ sendHeartbeat "10.0.0.5" hbLiveEx = (hbLiveEx, []) :=
  ⟨(c4_heartbeat_values hbIdleEx "10.0.0.5").1.1,
   (c4_heartbeat_values hbIdleEx "10.0.0.5").2.1 41 rfl rfl,
   (c4_heartbeat_values hbLiveEx "10.0.0.5").2.2 rfl⟩

/-- C5, counterexample: when the 5s liveness timer fires on a connected
heartbeat client, the channel emits `disconnected` TWICE (once from the
timeout handler, once from the close handler of the socket `disconnect()`
destroys), and the manager — with the command channel alive — consequently
arms TWO 2s reconnect timers, not exactly one of each as claimed. -/
theorem c5_counterexample :
    ((hbOnTimeoutFire hbLiveEx).2.count HbAction.emitDisconnected = 2)
    ∧ ((mgrReactionToHbEvents connCmdAlive (hbOnTimeoutFire hbLiveEx).2).count
          (MgrAction.timer 2000 (TimerKind.reconnectHb "192.168.1.50")) = 2) := by
  constructor
  · decide
  · decide

/-- C5, amended: a heartbeat with no echo within the 5s liveness timeout
makes the channel emit `timeout` and then `disconnected` twice — once
directly from the timeout handler and once from the close handler of the
destroyed socket — and the Connection Manager, while the command channel is
still alive, schedules two reconnect attempts for the heartbeat channel,
each after a 2-second delay. -/
theorem c5_timeout_disconnects (s : HbState) (conn : MobileConnection)
    (hc : s.isConnectedFlag = true) (ha : s.socketAlive = true)
    (hcmd : conn.cmdConnected = true) :
    (hbOnTimeoutFire s).2
        = [.emitTimeout, .emitDisconnected, .emitDisconnected]
    ∧ mgrReactionToHbEvents conn (hbOnTimeoutFire s).2
        = [.timer 2000 (.reconnectHb conn.device.ip),
           .timer 2000 (.reconnectHb conn.device.ip)] := by
  have hacts : (hbOnTimeoutFire s).2
      = [HbAction.emitTimeout, .emitDisconnected, .emitDisconnected] := by
    simp [hbOnTimeoutFire, hbDisconnect, hbOnClose, hc, ha]
  refine ⟨hacts, ?_⟩
  rw [hacts]
  simp [mgrReactionToHbEvents, handleDeviceDisconnection, hcmd]

/-- C5 witness: the amended behavior at a concrete in-flight heartbeat state
and a record whose command channel is alive. -/
theorem c5_witness :
    (hbOnTimeoutFire hbLiveEx).2
        = [.emitTimeout, .emitDisconnected, .emitDisconnected]
    ∧ mgrReactionToHbEvents connCmdAlive (hbOnTimeoutFire hbLiveEx).2
        = [.timer 2000 (.reconnectHb "192.168.1.50"),
           .timer 2000 (.reconnectHb "192.168.1.50")] :=
  c5_timeout_disconnects hbLiveEx connCmdAlive rfl rfl rfl

/-- C6, counterexample: in the command client's connect callback no handshake
write precedes the `connected` emission — the callback emits `connected`
first — refuting "sends the handshake frame ... before emitting connected". -/
theorem c6_counterexample :
    writeFrameBeforeEmitConnected (cmdOnConnect "myhost" "10.0.0.5") = false
    ∧ (cmdOnConnect "myhost" "10.0.0.5").head? = some CmdAction.emitConnected := by
  constructor
  · decide
  · decide

/-- C6, amended: when the command channel's TCP connect succeeds, the client
first emits `connected` and then immediately, within the same connect
callback, writes the handshake frame describing this server — hostname (with
the literal fallback), platform code 6, local IP, and version 1.0.0. -/
theorem c6_handshake_order (hostname localIp : String) :
    cmdOnConnect hostname localIp
      = [CmdAction.emitConnected,
         CmdAction.writeFrame
           { cmd := 2
             name := if hostname = "" then "AirController Server" else hostname
             platform := 6
             ip := localIp
             version := "1.0.0" }] := rfl

/-- C7, counterexample: a `file:upload` request reaches the stubbed
`uploadFile`, which issues NO HTTP call at all (it just replies success) —
refuting "for every data-plane WebSocket request — including file:upload —
the bridge issues an HTTP call ... with a 30-second timeout". -/
theorem c7_counterexample :
    (handleWebSocketMessage connCmdAlive uploadReq true none).filter
        MgrAction.isHttp = []
    ∧ handleWebSocketMessage connCmdAlive uploadReq true none
        = [.wsReply "u1" "file:upload:response"] := by
  constructor
  · decide
  · decide

/-- C7, amended: for every data-plane WebSocket request other than
`file:upload` — file listing/delete and image/video/album/contact/app
enumeration — the manager issues exactly one HTTP call to the device's fixed
local HTTP service, always with the 30-second timeout, and never sends
anything over the TCP channels; `file:upload` is answered locally with a
success reply, with no HTTP call and no TCP traffic either. -/
theorem c7_data_plane_http (conn : MobileConnection) (m : WsRequest)
    (httpOk : Bool) (imagesResp : Option (List MobileImage))
    (hm : m.rtype ∈ dataPlaneTypes) :
    ((handleWebSocketMessage conn m httpOk imagesResp).filter
        MgrAction.isTcpSend = [])
    ∧ (m.rtype ≠ "file:upload" →
        ((handleWebSocketMessage conn m httpOk imagesResp).filter
            MgrAction.isHttp).length = 1
        ∧ ((handleWebSocketMessage conn m httpOk imagesResp).filter
            MgrAction.isHttp).all isHttp30000 = true)
    ∧ (m.rtype = "file:upload" →
        (handleWebSocketMessage conn m httpOk imagesResp).filter
          MgrAction.isHttp = []) := by
  simp only [dataPlaneTypes, List.mem_cons, List.not_mem_nil, or_false] at hm
  rcases hm with h | h | h | h | h | h | h | h <;>
    rw [handleWebSocketMessage] <;>
    simp only [h] <;>
    first
      | (refine ⟨?_, fun _ => ⟨?_, ?_⟩, fun hcontra => absurd hcontra (by decide)⟩ <;>
          simp [getFileList, deleteFile, getAlbums, getContacts, getApps, getVideos,
                getImages, uploadFile, MgrAction.isTcpSend, MgrAction.isHttp,
                isHttp30000, HTTP_RELAY_TIMEOUT] <;>
          rcases imagesResp with _ | imgs <;>
          rcases m.albumId with _ | aid <;>
          simp [MgrAction.isTcpSend, MgrAction.isHttp, isHttp30000])
      | (refine ⟨?_, fun hcontra => absurd rfl hcontra, fun _ => ?_⟩ <;>
          simp [uploadFile, MgrAction.isTcpSend, MgrAction.isHttp])

/-- C7 witness: a `file:list` request issues exactly one 30s-timeout HTTP
call and no TCP traffic. -/
theorem c7_witness :
    ((handleWebSocketMessage connCmdAlive fileListReq true none).filter
        MgrAction.isTcpSend = [])
    ∧ ((handleWebSocketMessage connCmdAlive fileListReq true none).filter
          MgrAction.isHttp).length = 1
    ∧ ((handleWebSocketMessage connCmdAlive fileListReq true none).filter
          MgrAction.isHttp).all isHttp30000 = true :=
  ⟨(c7_data_plane_http connCmdAlive fileListReq true none (by decide)).1,
   (c7_data_plane_http connCmdAlive fileListReq true none (by decide)).2.1
     (by decide)⟩

/-- C8, counterexample: the thumbnail URL `getImages` builds is a function of
the image's *path* and not of its id — two images with different ids but the
same path get identical URLs, while equal ids with different paths get
different URLs — refuting "a thumbnailUrl built from the device ip, the
fixed HTTP port, and the image's id". -/
theorem c8_counterexample :
    ((addThumbnailUrl "192.168.1.50" { id := "1", path := "/dcim/a.jpg" }).thumbnailUrl
      = (addThumbnailUrl "192.168.1.50" { id := "2", path := "/dcim/a.jpg" }).thumbnailUrl)
    ∧ ((addThumbnailUrl "192.168.1.50" { id := "1", path := "/dcim/a.jpg" }).thumbnailUrl
      ≠ (addThumbnailUrl "192.168.1.50" { id := "1", path := "/dcim/b.jpg" }).thumbnailUrl) := by
  constructor
  · decide
  · decide

/-- C8, amended: an `image:list` request with no album id is relayed to the
device's `/image/all` endpoint (30s timeout), and every entry of the reply —
delivered under the request's correlation id as `image:list:response` —
carries a `thumbnailUrl` built from the device ip, the fixed HTTP port 9527,
and the image's URL-encoded *path* via the `/stream/thumbnail` endpoint. -/
theorem c8_image_list (conn : MobileConnection) (corrId : String)
    (images : List MobileImage) :
    getImages conn corrId none (some images)
      = [.http "POST" "/image/all" 30000,
         .wsReplyImages corrId "image:list:response"
           (images.map (addThumbnailUrl conn.device.ip))]
    ∧ ∀ img ∈ images,
        (addThumbnailUrl conn.device.ip img).thumbnailUrl
          = "http://" ++ conn.device.ip ++ ":9527/stream/thumbnail?path="
            ++ encodeURIComponent img.path :=
  ⟨rfl, fun _ _ => rfl⟩

/-- C8 witness: the relay and the reshaped entry at concrete inputs. -/
theorem c8_witness :
    getImages connCmdAlive "x1" none (some [{ id := "9", path := "/dcim/a.jpg" }])
      = [.http "POST" "/image/all" 30000,
         .wsReplyImages "x1" "image:list:response"
           ([{ id := "9", path := "/dcim/a.jpg" }].map (addThumbnailUrl "192.168.1.50"))]
    ∧ (addThumbnailUrl "192.168.1.50"
          { id := "9", path := "/dcim/a.jpg" }).thumbnailUrl
        = "http://" ++ "192.168.1.50" ++ ":9527/stream/thumbnail?path="
          ++ encodeURIComponent "/dcim/a.jpg" :=
  ⟨(c8_image_list connCmdAlive "x1" [{ id := "9", path := "/dcim/a.jpg" }]).1,
   (c8_image_list connCmdAlive "x1" [{ id := "9", path := "/dcim/a.jpg" }]).2
     { id := "9", path := "/dcim/a.jpg" } (by decide)⟩

/-- C9: when a WebSocket client detaches (its socket closes), the close
handler only removes it from the record's client set: no action is produced
(in particular no TCP disconnect), the record stays in the table with both
channel states and the `connected` flag untouched — even when the detaching
client was the last one — and every other record is unchanged. -/
theorem c9_detach_keeps_channels (st : ConnTable) (ip : String) (ws : Nat)
    (conn : MobileConnection) (hex : lookupAssoc ip st = some conn) :
    ((wsOnClose st ip ws).2 = [])
    ∧ (lookupAssoc ip (wsOnClose st ip ws).1
        = some { conn with webSocketClients := conn.webSocketClients.erase ws })
    ∧ (∀ ip', ip' ≠ ip →
        lookupAssoc ip' (wsOnClose st ip ws).1 = lookupAssoc ip' st) := by
  unfold wsOnClose
  rw [hex]
  exact ⟨rfl, lookupAssoc_insertAssoc_self _ _ _,
         fun ip' h => lookupAssoc_insertAssoc_ne _ _ h⟩

/-- C9 witness: the last attached client detaching leaves the record (and its
channel flags) in the table with an empty client set and produces no action. -/
theorem c9_witness :
    ((wsOnClose [("192.168.1.50", connOneClient)] "192.168.1.50" 9).2 = [])
    ∧ (lookupAssoc "192.168.1.50"
          (wsOnClose [("192.168.1.50", connOneClient)] "192.168.1.50" 9).1
        = some { connOneClient with webSocketClients := [] }) :=
  ⟨(c9_detach_keeps_channels [("192.168.1.50", connOneClient)]
      "192.168.1.50" 9 connOneClient rfl).1,
   (c9_detach_keeps_channels [("192.168.1.50", connOneClient)]
      "192.168.1.50" 9 connOneClient rfl).2.1⟩

/-- C10: when `connectToDevice` finds an existing record for the device ip —
whatever its `connected` flag, its channels' states, or the outcome the TCP
connects would have — it sends the requester exactly one
`connection:success`, attaches the client to that record, does not throw,
and touches nothing else; moreover, during a first connect the fresh record
(with `connected = false`) is already in the table before the TCP connects
are awaited, so an interleaved `connect:device` takes exactly this path. -/
theorem c10_reuse_unconditional (st : ConnTable) (device : Device) (ws : Nat)
    (oc : ConnectOutcome) (conn : MobileConnection)
    (hex : lookupAssoc device.ip st = some conn) :
    connectToDevice st device ws oc
      = (insertAssoc device.ip
           { conn with webSocketClients := addClient ws conn.webSocketClients } st,
         [.wsSend ws "connection:success"], false)
    ∧ lookupAssoc device.ip (connectPhase1 st device)
        = some (freshConnection device)
    ∧ (freshConnection device).connected = false := by
  refine ⟨?_, ?_, rfl⟩
  · unfold connectToDevice
    rw [hex]
  · unfold connectPhase1
    exact lookupAssoc_insertAssoc_self _ _ _

/-- C10 witness: a record whose channels have both dropped (and whose
`connected` flag is false) still yields `connection:success`, even when both
TCP connects would fail. -/
theorem c10_witness :
    connectToDevice [("192.168.1.50", connDropped)] deviceFifty 3
        { cmdOk := false, hbOk := false }
      = (insertAssoc "192.168.1.50"
           { connDropped with webSocketClients := addClient 3 [2] }
           [("192.168.1.50", connDropped)],
         [.wsSend 3 "connection:success"], false) :=
  (c10_reuse_unconditional [("192.168.1.50", connDropped)] deviceFifty 3
      { cmdOk := false, hbOk := false } connDropped rfl).1
